import Mathlib

/-!
# Shallow embedding of the salsa-mixer scripts

This file embeds the two near-duplicate browser scripts of the repository:

* variant A: `src/mixer.js`
* variant B: `src/unnamed/part_000` (the variant with the message box and the
  mute-aware start condition in `togglePlayPause`)

Pure functions of the scripts become Lean functions; the scripts' global
mutable variables (`players`, `instrumentButtons`, `instrumentStates`,
`currentBeat`, the `beatCounter` closure variable, the transport, the DOM
pieces the scripts touch) become the fields of an explicit state record
`MixState`, and every event handler becomes a state transformer.

JavaScript objects used as string-keyed maps are embedded as association
lists in insertion order (`jsGet` reads a property, `jsSet` writes it,
overwriting in place or appending like a JS property assignment).

The external audio engine (Tone.js) is not part of the repository; the
embedding keeps only the repository-visible face of an engine handle: a
player owns the instrument name it was created for (the Player Bank keeps
one handle per instrument), a `volume` that the scripts set to `0` or
`-Infinity`, and an `isPlaying` flag that `start()` raises and `pause()`
clears.  Audio loading is asynchronous and may fail per instrument; the
embedding abstracts the outcome as a function `ok : String → Bool` giving,
for each instrument name, whether its buffer load succeeded.
-/

namespace SalsaMixer

/-- A player volume as the scripts set it: a finite decibel value
(`player.volume.value = 0`) or JavaScript `-Infinity`
(`player.volume.value = -Infinity`). -/
inductive Vol where
  | db (v : Int)
  | silent
deriving DecidableEq, Repr

/-- The repository-visible face of a `Tone.Player` handle: the instrument
name the Player Bank created it for (the key it is stored under in
`players`), its volume, and whether it is currently playing
(`start()` sets `isPlaying`, `pause()` clears it). -/
structure Player where
  name : String
  volume : Vol
  isPlaying : Bool
deriving DecidableEq, Repr

/-- A DOM button as the scripts use it: the `disabled` attribute and its
`classList`. -/
structure Button where
  disabled : Bool
  classes : List String
deriving DecidableEq, Repr

/-- A JavaScript object used as a string-keyed map, in insertion order. -/
abbrev JsMap (α : Type) := List (String × α)

/-- Property read `m[k]`: the first entry with key `k`, if any. -/
def jsGet {α : Type} (m : JsMap α) (k : String) : Option α :=
  (m.find? (fun kv => kv.1 = k)).map (fun kv => kv.2)

/-- Property write `m[k] = v`: overwrite the entry in place, or append. -/
def jsSet {α : Type} (m : JsMap α) (k : String) (v : α) : JsMap α :=
  match m with
  | [] => [(k, v)]
  | kv :: rest => if kv.1 = k then (k, v) :: rest else kv :: jsSet rest k v

/-- `classList.add(c)`: a DOMTokenList is a set, so adding an existing
token is a no-op, otherwise the token is appended. -/
def classListAdd (cs : List String) (c : String) : List String :=
  if c ∈ cs then cs else cs ++ [c]

/-- `classList.remove(c)`: drop every occurrence of the token. -/
def classListRemove (cs : List String) (c : String) : List String :=
  cs.filter (fun x => decide (x ≠ c))

/-- `classList.contains(c)`. -/
def classListContains (cs : List String) (c : String) : Bool :=
  decide (c ∈ cs)

/-- An entry of the `instruments` array.  Variant A additionally carries
`triggerBeats` (informational only, never read by playback code); variant
B's array has only `name` and `url`, embedded here with `triggerBeats = []`. -/
structure Instrument where
  name : String
  url : String
  triggerBeats : List Rat
deriving DecidableEq, Repr

/-- The `instruments` array of variant A (`src/mixer.js`). -/
def instruments : List Instrument :=
  [ ⟨"Clave", "clave.wav", [1, 3, 5, 7]⟩,
    ⟨"Conga", "conga.wav", [1, 5/2, 4, 11/2, 7]⟩,
    ⟨"Bass", "bass.wav", [1, 3, 5, 7]⟩,
    ⟨"Piano", "piano.wav", [2, 4, 6, 8]⟩,
    ⟨"Maracas", "maracas.wav", [1, 2, 3, 4, 5, 6, 7, 8]⟩,
    ⟨"Guiro", "guiro.wav", [3/2, 7/2, 11/2, 15/2]⟩,
    ⟨"Trumpet", "trumpet.wav", [1, 5]⟩,
    ⟨"Trombone", "trombone.wav", [3, 7]⟩,
    ⟨"Vocals", "vocals.wav", [1]⟩ ]

/-- The `instruments` array of variant B (`src/unnamed/part_000`): same
names and urls, no `triggerBeats` field. -/
def instrumentsB : List Instrument :=
  [ ⟨"Clave", "clave.wav", []⟩,
    ⟨"Conga", "conga.wav", []⟩,
    ⟨"Bass", "bass.wav", []⟩,
    ⟨"Piano", "piano.wav", []⟩,
    ⟨"Maracas", "maracas.wav", []⟩,
    ⟨"Guiro", "guiro.wav", []⟩,
    ⟨"Trumpet", "trumpet.wav", []⟩,
    ⟨"Trombone", "trombone.wav", []⟩,
    ⟨"Vocals", "vocals.wav", []⟩ ]

/-- `const totalBeats = 8`. -/
def totalBeats : Nat := 8

/-- The mutable state the two scripts close over: the three global maps,
the beat counters, the transport and audio-context flags, the DOM text and
class state the scripts write, and the console/message-box output.
`beatIndicators` holds, for the spans `beat-1 .. beat-8` in order, whether
the span carries the `current` class.  `masterVolume`, `bpm`,
`transportLoop` and `loopEnd` record the external-engine configuration the
scripts assign (slider values are embedded as integers; no claim touches
them). -/
structure MixState where
  players : JsMap Player
  instrumentButtons : JsMap Button
  instrumentStates : JsMap Bool
  currentBeat : Int
  beatCounter : Nat
  transportStarted : Bool
  contextRunning : Bool
  playPauseText : String
  beatIndicators : List Bool
  messageBoxHidden : Bool
  messageText : String
  consoleErrors : List String
  consoleLog : List String
  sliderValue : Int
  masterVolume : Int
  bpm : Int
  transportLoop : Bool
  loopEnd : String
deriving DecidableEq, Repr

/-- The state at script load: empty maps, `currentBeat = 0`, transport
stopped, audio context not yet running, message box hidden (variant B's
markup gives it the `hidden` class), no beat-indicator spans yet. -/
def initialState : MixState :=
  { players := []
    instrumentButtons := []
    instrumentStates := []
    currentBeat := 0
    beatCounter := 0
    transportStarted := false
    contextRunning := false
    playPauseText := "Play"
    beatIndicators := []
    messageBoxHidden := true
    messageText := ""
    consoleErrors := []
    consoleLog := []
    sliderValue := 0
    masterVolume := 0
    bpm := 120
    transportLoop := false
    loopEnd := "" }

/-- Variant B's `showMessageBox(message)`. -/
def showMessageBox (s : MixState) (message : String) : MixState :=
  { s with messageText := message, messageBoxHidden := false }

/-- Variant B's `hideMessageBox()`. -/
def hideMessageBox (s : MixState) : MixState :=
  { s with messageBoxHidden := true }

/-- The `mousedown` handler on `document.documentElement`: start the audio
context if it is not running yet. -/
def documentMousedown (s : MixState) : MixState :=
  if s.contextRunning then s else { s with contextRunning := true }

/-- The `console.error` text for a failed load (both variants). -/
def loadErrorMsg (inst : Instrument) : String :=
  "Error loading " ++ inst.name ++ " from " ++ inst.url ++ ":"

/-- Variant B's message-box text for a failed load. -/
def loadFailPopupMsg (inst : Instrument) : String :=
  "Failed to load audio for " ++ inst.name ++ ". Please ensure \x27" ++
    inst.url ++ "\x27 is in the correct folder and accessible."

/-- The `console.log` text for a successful load (both variants). -/
def loadSuccessMsg (inst : Instrument) : String :=
  "Loaded " ++ inst.name ++ " from " ++ inst.url

/-- A freshly constructed `Tone.Player` as `initializeAudio` builds it:
`volume: 0`, `autostart: false`. -/
def initialPlayer (nm : String) : Player :=
  { name := nm, volume := Vol.db 0, isPlaying := false }

/-- The button mutation both variants apply to a failed instrument (in
`initializeAudio`'s catch block and in `window.onload`'s else branch):
`disabled = true`, `classList.remove` of `active`, `classList.add` of the
disabled styling. -/
def disabledify (b : Button) : Button :=
  { b with
    disabled := true
    classes := classListAdd
      (classListAdd (classListRemove b.classes "active") "opacity-50")
      "cursor-not-allowed" }

/-- One iteration of `initializeAudio`'s load loop for one instrument.
`modal = true` is variant B (which additionally calls `showMessageBox` on
failure); `ok inst.name` says whether `await player.loaded` succeeded.
On success the player is stored and the state set audible; on failure the
error is logged (and the message box shown in variant B), the state set to
`false`, and — if the instrument's button already exists — the button is
disabled, loses `active` and gains the disabled styling classes. -/
def loadInstrument (modal : Bool) (ok : String → Bool) (s : MixState)
    (inst : Instrument) : MixState :=
  if ok inst.name then
    { s with
      players := jsSet s.players inst.name (initialPlayer inst.name)
      instrumentStates := jsSet s.instrumentStates inst.name true
      consoleLog := s.consoleLog ++ [loadSuccessMsg inst] }
  else
    let s1 : MixState :=
      { s with
        consoleErrors := s.consoleErrors ++ [loadErrorMsg inst]
        messageBoxHidden := if modal then false else s.messageBoxHidden
        messageText := if modal then loadFailPopupMsg inst else s.messageText
        instrumentStates := jsSet s.instrumentStates inst.name false }
    match jsGet s1.instrumentButtons inst.name with
    | some b =>
        { s1 with
          instrumentButtons := jsSet s1.instrumentButtons inst.name (disabledify b) }
    | none => s1

/-- `initializeAudio()`: create the master volume at the slider value, load
every instrument (recording per-instrument success or failure), set the
master volume again from the slider, configure the transport (BPM 180,
looping, loop end `2m`) and create the beat loop with its fresh
`beatCounter = 0` closure variable. -/
def initializeAudio (modal : Bool) (insts : List Instrument)
    (ok : String → Bool) (s : MixState) : MixState :=
  let s1 : MixState := { s with masterVolume := s.sliderValue }
  let s2 : MixState := insts.foldl (loadInstrument modal ok) s1
  { s2 with
    masterVolume := s2.sliderValue
    bpm := 180
    transportLoop := true
    loopEnd := "2m"
    beatCounter := 0 }

/-- The classes `createInstrumentButtons` gives every fresh instrument
button, `active` included. -/
def initialButtonClasses : List String :=
  [ "instrument-button", "px-6", "py-3", "rounded-xl", "text-lg",
    "font-semibold", "shadow-md", "hover:shadow-lg", "focus:outline-none",
    "focus:ring-2", "focus:ring-blue-300", "active" ]

/-- A button as `createInstrumentButtons` builds it: enabled, with the
initial class list. -/
def initialButton : Button :=
  { disabled := false, classes := initialButtonClasses }

/-- One iteration of `createInstrumentButtons`' loop: build the button for
one instrument and store it under the instrument's name. -/
def createButtonStep (s : MixState) (inst : Instrument) : MixState :=
  { s with instrumentButtons := jsSet s.instrumentButtons inst.name initialButton }

/-- `createInstrumentButtons()`: one enabled, `active` button per
instrument, stored in `instrumentButtons`. -/
def createInstrumentButtons (insts : List Instrument) (s : MixState) :
    MixState :=
  insts.foldl createButtonStep s

/-- `createBeatIndicators()`: append `totalBeats` spans, none of them
carrying the `current` class yet. -/
def createBeatIndicators (s : MixState) : MixState :=
  { s with beatIndicators := s.beatIndicators ++ List.replicate totalBeats false }

/-- `toggleInstrument(instrumentName)` (identical in both variants): only
when a player exists for the name and the button is not disabled, flip the
state flag, and set volume and `active` class from the new flag. -/
def toggleInstrument (s : MixState) (instrumentName : String) : MixState :=
  match jsGet s.players instrumentName, jsGet s.instrumentButtons instrumentName with
  | some player, some button =>
      if button.disabled then s
      else
        let newState : Bool := !((jsGet s.instrumentStates instrumentName).getD false)
        if newState then
          { s with
            instrumentStates := jsSet s.instrumentStates instrumentName true
            players := jsSet s.players instrumentName
              { player with volume := Vol.db 0 }
            instrumentButtons := jsSet s.instrumentButtons instrumentName
              { button with classes := classListAdd button.classes "active" } }
        else
          { s with
            instrumentStates := jsSet s.instrumentStates instrumentName false
            players := jsSet s.players instrumentName
              { player with volume := Vol.silent }
            instrumentButtons := jsSet s.instrumentButtons instrumentName
              { button with classes := classListRemove button.classes "active" } }
  | _, _ => s

/-- `updateBeatDisplay(beat)` (identical in both variants): clear `current`
from every indicator span, then add it to the span with id `beat-<beat>` if
that span exists — the spans are `beat-1 .. beat-<length>`, so a beat
outside that range adds `current` nowhere. -/
def updateBeatDisplay (inds : List Bool) (beat : Int) : List Bool :=
  let cleared : List Bool := inds.map (fun _ => false)
  if 1 ≤ beat then cleared.set (beat - 1).toNat true else cleared

/-- One firing of the `Tone.Loop` callback registered by `initializeAudio`
(identical in both variants): set `currentBeat` to the 1-indexed display
value, redraw the indicators, then step the 0-indexed closure counter
modulo `totalBeats`.  The external engine fires this once per eighth note
while the transport runs. -/
def beatLoopTick (s : MixState) : MixState :=
  let displayed : Int := ((s.beatCounter % totalBeats : Nat) : Int) + 1
  { s with
    currentBeat := displayed
    beatIndicators := updateBeatDisplay s.beatIndicators displayed
    beatCounter := (s.beatCounter + 1) % totalBeats }

/-- Variant A's `togglePlayPause()` (`src/mixer.js`): when the transport is
started, pause it and pause every playing player; otherwise start it and
start every player that is not already playing — with no mute check. -/
def togglePlayPauseA (s : MixState) : MixState :=
  if s.transportStarted then
    { s with
      transportStarted := false
      playPauseText := "Play"
      players := s.players.map
        (fun kv =>
          (kv.1, if kv.2.isPlaying then { kv.2 with isPlaying := false } else kv.2)) }
  else
    { s with
      transportStarted := true
      playPauseText := "Pause"
      players := s.players.map
        (fun kv =>
          (kv.1, if kv.2.isPlaying then kv.2 else { kv.2 with isPlaying := true })) }

/-- Variant B's `togglePlayPause()` (`src/unnamed/part_000`): the pause
branch is identical to variant A's; the start branch first resumes the
audio context if needed, then starts only the players that are not playing
and whose `instrumentStates[player.name]` entry is truthy. -/
def togglePlayPauseB (s : MixState) : MixState :=
  if s.transportStarted then
    { s with
      transportStarted := false
      playPauseText := "Play"
      players := s.players.map
        (fun kv =>
          (kv.1, if kv.2.isPlaying then { kv.2 with isPlaying := false } else kv.2)) }
  else
    { s with
      contextRunning := true
      transportStarted := true
      playPauseText := "Pause"
      players := s.players.map
        (fun kv =>
          (kv.1,
            if !kv.2.isPlaying && (jsGet s.instrumentStates kv.2.name).getD false then
              { kv.2 with isPlaying := true }
            else kv.2)) }

/-- The volume slider's `input` handler: record the slider value and push
it to the master volume node. -/
def volumeSliderInput (s : MixState) (v : Int) : MixState :=
  { s with sliderValue := v, masterVolume := v }

/-- One iteration of the `window.onload` fix-up loop over `instruments`
(identical in both variants): for an instrument whose button exists, a
truthy state re-adds `active` and forces the player's volume audible (when
a player exists); a falsy state removes `active`, disables the button,
adds the disabled styling and forces the player's volume silent (when a
player exists). -/
def onloadStep (s : MixState) (inst : Instrument) : MixState :=
  match jsGet s.instrumentButtons inst.name with
  | none => s
  | some b =>
    if (jsGet s.instrumentStates inst.name).getD false then
      let s1 : MixState :=
        { s with
          instrumentButtons := jsSet s.instrumentButtons inst.name
            { b with classes := classListAdd b.classes "active" } }
      match jsGet s1.players inst.name with
      | some p =>
          { s1 with
            players := jsSet s1.players inst.name { p with volume := Vol.db 0 } }
      | none => s1
    else
      let s1 : MixState :=
        { s with
          instrumentButtons := jsSet s.instrumentButtons inst.name (disabledify b) }
      match jsGet s1.players inst.name with
      | some p =>
          { s1 with
            players := jsSet s1.players inst.name { p with volume := Vol.silent } }
      | none => s1

/-- The state after `createInstrumentButtons()` and `createBeatIndicators()`
have run inside `window.onload`, before `initializeAudio()`. -/
def preloadState (insts : List Instrument) : MixState :=
  createBeatIndicators (createInstrumentButtons insts initialState)

/-- Variant A's state right after `await initializeAudio()` inside
`window.onload`, for load outcome `ok`. -/
def postInitA (ok : String → Bool) : MixState :=
  initializeAudio false instruments ok (preloadState instruments)

/-- Variant B's state right after `await initializeAudio()` inside
`window.onload`, for load outcome `ok`. -/
def postInitB (ok : String → Bool) : MixState :=
  initializeAudio true instrumentsB ok (preloadState instrumentsB)

/-- The tail of `window.onload` shared by both variants: the per-instrument
fix-up loop followed by `updateBeatDisplay(1)`. -/
def onloadTail (insts : List Instrument) (s : MixState) : MixState :=
  let s1 : MixState := insts.foldl onloadStep s
  { s1 with beatIndicators := updateBeatDisplay s1.beatIndicators 1 }

/-- Variant A's whole `window.onload`, for load outcome `ok`. -/
def onloadA (ok : String → Bool) : MixState :=
  onloadTail instruments (postInitA ok)

/-- Variant B's whole `window.onload`, for load outcome `ok` (the final
`messageBoxOkBtn` listener registration mutates no embedded state). -/
def onloadB (ok : String → Bool) : MixState :=
  onloadTail instrumentsB (postInitB ok)

/-- The three-way mute consistency at one key: whenever a player is stored
under `k`, a button is stored under `k` too, and the state flag, the
player volume and the `active` class agree (`true` ↔ volume `0` ↔
`active` present; `false` ↔ volume `-Infinity` ↔ `active` absent). -/
def consistentAtB (s : MixState) (k : String) : Bool :=
  match jsGet s.players k with
  | none => true
  | some p =>
    match jsGet s.instrumentButtons k with
    | none => false
    | some b =>
      if (jsGet s.instrumentStates k).getD false then
        decide (p.volume = Vol.db 0) && classListContains b.classes "active"
      else
        decide (p.volume = Vol.silent) && !(classListContains b.classes "active")

/-- The three-way mute consistency over every stored player. -/
def consistent (s : MixState) : Bool :=
  s.players.all (fun kv => consistentAtB s kv.1)

/-- A concrete stopped state with the Clave player loaded, muted and not
playing: the players map holds its handle, its state flag is `false` and
its button is enabled without the `active` class. -/
def c1State : MixState :=
  { initialState with
    players := [("Clave", { name := "Clave", volume := Vol.silent, isPlaying := false })]
    instrumentButtons :=
      [("Clave",
        { disabled := false,
          classes := classListRemove initialButtonClasses "active" })]
    instrumentStates := [("Clave", false)] }

/-- A concrete running state with the Clave player loaded, audible and
playing and the Conga player loaded, audible and not playing. -/
def c3State : MixState :=
  { initialState with
    players :=
      [("Clave", { name := "Clave", volume := Vol.db 0, isPlaying := true }),
       ("Conga", { name := "Conga", volume := Vol.db 0, isPlaying := false })]
    instrumentButtons :=
      [("Clave", initialButton), ("Conga", initialButton)]
    instrumentStates := [("Clave", true), ("Conga", true)]
    transportStarted := true
    playPauseText := "Pause" }

/-- The button of an instrument whose load failed, as both variants leave
it: disabled, `active` removed, disabled styling added. -/
def c5DisabledButton : Button :=
  disabledify initialButton

/-- A concrete state after Clave's load failed and Conga's succeeded:
Clave has no player and a disabled button, Conga is loaded and audible. -/
def c5State : MixState :=
  { initialState with
    players := [("Conga", initialPlayer "Conga")]
    instrumentButtons := [("Clave", c5DisabledButton), ("Conga", initialButton)]
    instrumentStates := [("Clave", false), ("Conga", true)] }

/-- A load outcome in which exactly Clave's buffer fails to load. -/
def okW : String → Bool := fun nm => decide (nm ≠ "Clave")

/-! ## Map and class-list lemmas -/

theorem jsGet_cons {α : Type} (kv : String × α) (rest : JsMap α) (k : String) :
    jsGet (kv :: rest) k = if kv.1 = k then some kv.2 else jsGet rest k := by
  by_cases h : kv.1 = k <;> simp [jsGet, List.find?_cons, h]

theorem jsGet_jsSet_self {α : Type} (m : JsMap α) (k : String) (v : α) :
    jsGet (jsSet m k v) k = some v := by
  induction m with
  | nil => simp [jsSet, jsGet_cons]
  | cons kv rest ih =>
      by_cases h : kv.1 = k <;> simp [jsSet, h, jsGet_cons, ih]

theorem jsGet_jsSet_ne {α : Type} (m : JsMap α) (k k2 : String) (v : α)
    (h : k ≠ k2) : jsGet (jsSet m k v) k2 = jsGet m k2 := by
  induction m with
  | nil => simp [jsSet, jsGet_cons, h]
  | cons kv rest ih =>
      by_cases hk : kv.1 = k
      · simp [jsSet, hk, jsGet_cons, h]
      · simp [jsSet, hk, jsGet_cons, ih]

theorem jsGet_map_of_some {α : Type} (f : String × α → α) (m : JsMap α)
    (k : String) (v : α) (h : jsGet m k = some v) :
    jsGet (m.map (fun kv => (kv.1, f kv))) k = some (f (k, v)) := by
  induction m with
  | nil => simp [jsGet] at h
  | cons kv rest ih =>
      obtain ⟨x, y⟩ := kv
      rw [jsGet_cons] at h
      by_cases hk : x = k
      · subst hk
        simp at h
        subst h
        simp [jsGet_cons]
      · simp [hk] at h
        simpa [jsGet_cons, hk] using ih h

theorem mem_classListAdd_iff (cs : List String) (c d : String) :
    d ∈ classListAdd cs c ↔ d ∈ cs ∨ d = c := by
  unfold classListAdd
  by_cases h : c ∈ cs
  · simp only [if_pos h]
    constructor
    · exact Or.inl
    · rintro (hd | rfl)
      · exact hd
      · exact h
  · simp [if_neg h, or_comm]

theorem mem_classListRemove_iff (cs : List String) (c d : String) :
    d ∈ classListRemove cs c ↔ d ∈ cs ∧ d ≠ c := by
  simp [classListRemove, List.mem_filter]

/-! ## Claim theorems -/

/-- C2 counterexample: the claim asserts the BeatCounter invariant
`currentBeat ∈ [1,8]` already in the initial state, but the scripts
declare `let currentBeat = 0`, and it is still `0` after a fully
successful `window.onload` of either variant (the beat callback has not
fired yet). -/
theorem c2_counterexample :
    initialState.currentBeat = 0 ∧
    (onloadA (fun _ => true)).currentBeat = 0 ∧
    (onloadB (fun _ => true)).currentBeat = 0 ∧
    ¬(1 ≤ initialState.currentBeat ∧ initialState.currentBeat ≤ 8) := by
  refine ⟨rfl, rfl, rfl, ?_⟩
  decide

/-- C2 (amended): `currentBeat` starts at `0`, outside `[1,8]`; it is every
beat-callback firing that puts it into `[1,8]` (cyclically wrapped), so the
range invariant holds from the first firing onward and is preserved by
every later firing. -/
theorem c2_beat_range (s : MixState) :
    1 ≤ (beatLoopTick s).currentBeat ∧ (beatLoopTick s).currentBeat ≤ 8 := by
  have h : s.beatCounter % totalBeats < totalBeats :=
    Nat.mod_lt _ (by decide)
  simp only [beatLoopTick, totalBeats] at h ⊢
  omega

/-- C7: each firing of the beat callback sets the displayed counter from
the internal eighth-note counter, two successive firings produce
consecutive values of the cycle `1→2→…→8→1` (the successor of `8` is `1`),
the displayed value is always in `[1,8]`, and none of the other operations
of the scripts (`toggleInstrument`, either variant's `togglePlayPause`, the
context-unlock mousedown, the message box, the volume slider) changes
`currentBeat`. -/
theorem c7_beat_advance (s : MixState) (nm msg : String) (v : Int) :
    (beatLoopTick s).currentBeat = ((s.beatCounter % totalBeats : Nat) : Int) + 1 ∧
    (beatLoopTick (beatLoopTick s)).currentBeat =
      (beatLoopTick s).currentBeat % 8 + 1 ∧
    (1 ≤ (beatLoopTick s).currentBeat ∧ (beatLoopTick s).currentBeat ≤ 8) ∧
    ((beatLoopTick s).currentBeat = 8 →
      (beatLoopTick (beatLoopTick s)).currentBeat = 1) ∧
    (toggleInstrument s nm).currentBeat = s.currentBeat ∧
    (togglePlayPauseA s).currentBeat = s.currentBeat ∧
    (togglePlayPauseB s).currentBeat = s.currentBeat ∧
    (documentMousedown s).currentBeat = s.currentBeat ∧
    (showMessageBox s msg).currentBeat = s.currentBeat ∧
    (hideMessageBox s).currentBeat = s.currentBeat ∧
    (volumeSliderInput s v).currentBeat = s.currentBeat := by
  have h : s.beatCounter % totalBeats < totalBeats :=
    Nat.mod_lt _ (by decide)
  refine ⟨rfl, ?_, ?_, ?_, ?_, ?_, ?_, ?_, ?_, ?_, ?_⟩
  · simp only [beatLoopTick, totalBeats] at h ⊢
    omega
  · simp only [beatLoopTick, totalBeats] at h ⊢
    omega
  · simp only [beatLoopTick, totalBeats] at h ⊢
    omega
  · unfold toggleInstrument
    cases jsGet s.players nm <;> cases jsGet s.instrumentButtons nm <;> simp
    split_ifs <;> rfl
  · unfold togglePlayPauseA
    split_ifs <;> rfl
  · unfold togglePlayPauseB
    split_ifs <;> rfl
  · unfold documentMousedown
    split_ifs <;> rfl
  · rfl
  · rfl
  · rfl

/-- C8: for every beat value in `[1,8]` and the eight indicator spans the
page creates, `updateBeatDisplay` leaves exactly one span carrying the
`current` class — the span of that beat — and clears it from every other
span. -/
theorem c8_update_display (inds : List Bool) (b : Int)
    (hlen : inds.length = 8) (h1 : 1 ≤ b) (h8 : b ≤ 8) :
    (updateBeatDisplay inds b).count true = 1 ∧
    ∀ i : Nat, i < 8 →
      ((updateBeatDisplay inds b).getD i false = true ↔ (i : Int) = b - 1) := by
  have hc : inds.map (fun _ => false) = List.replicate 8 false := by
    rw [List.map_const']
    rw [hlen]
  simp only [updateBeatDisplay, hc, if_pos h1]
  interval_cases b <;> exact ⟨by decide, by decide⟩

/-- C8 witness: beat `3` on fresh indicators. -/
theorem c8_witness :
    (List.replicate 8 false).length = 8 ∧ (1 : Int) ≤ 3 ∧ (3 : Int) ≤ 8 ∧
    ((updateBeatDisplay (List.replicate 8 false) 3).count true = 1 ∧
      ∀ i : Nat, i < 8 →
        ((updateBeatDisplay (List.replicate 8 false) 3).getD i false = true ↔
          (i : Int) = 3 - 1)) :=
  ⟨by decide, by decide, by decide,
    c8_update_display (List.replicate 8 false) 3 (by decide) (by decide)
      (by decide)⟩

/-- C3: on the RUNNING→STOPPED transition of either variant, every stored
player ends up not playing (a playing player is paused), a player that was
not playing is returned unchanged, and the transport is stopped. -/
theorem c3_pause_all (s : MixState) (k : String) (p : Player)
    (hrun : s.transportStarted = true)
    (hp : jsGet s.players k = some p) :
    jsGet (togglePlayPauseA s).players k = some { p with isPlaying := false } ∧
    jsGet (togglePlayPauseB s).players k = some { p with isPlaying := false } ∧
    (p.isPlaying = false →
      jsGet (togglePlayPauseA s).players k = some p ∧
      jsGet (togglePlayPauseB s).players k = some p) ∧
    (togglePlayPauseA s).transportStarted = false ∧
    (togglePlayPauseB s).transportStarted = false := by
  obtain ⟨nm, vol, ip⟩ := p
  have hA := jsGet_map_of_some
    (fun kv => if kv.2.isPlaying then { kv.2 with isPlaying := false } else kv.2)
    s.players k _ hp
  simp only [togglePlayPauseA, togglePlayPauseB, hrun, if_true]
  cases ip <;> simp_all

/-- C3 witness: a running two-player state, one playing and one not. -/
theorem c3_witness :
    jsGet (togglePlayPauseA c3State).players "Clave" =
      some { name := "Clave", volume := Vol.db 0, isPlaying := false } ∧
    jsGet (togglePlayPauseB c3State).players "Clave" =
      some { name := "Clave", volume := Vol.db 0, isPlaying := false } ∧
    ((true : Bool) = false →
      jsGet (togglePlayPauseA c3State).players "Clave" =
        some { name := "Clave", volume := Vol.db 0, isPlaying := true } ∧
      jsGet (togglePlayPauseB c3State).players "Clave" =
        some { name := "Clave", volume := Vol.db 0, isPlaying := true }) ∧
    (togglePlayPauseA c3State).transportStarted = false ∧
    (togglePlayPauseB c3State).transportStarted = false :=
  c3_pause_all c3State "Clave"
    { name := "Clave", volume := Vol.db 0, isPlaying := true } rfl rfl

/-- C1 counterexample: the claim says a muted instrument's player is not
started on STOPPED→RUNNING, but in variant A (`src/mixer.js`) the start
branch starts every non-playing player with no mute check: with Clave
loaded, muted (state `false`) and not playing in a stopped state,
`togglePlayPause` leaves Clave playing. -/
theorem c1_counterexample :
    c1State.transportStarted = false ∧
    jsGet c1State.instrumentStates "Clave" = some false ∧
    (jsGet c1State.players "Clave").map Player.isPlaying = some false ∧
    (jsGet (togglePlayPauseA c1State).players "Clave").map Player.isPlaying =
      some true :=
  ⟨rfl, rfl, rfl, rfl⟩

/-- C1 (amended): on the STOPPED→RUNNING transition, variant A
(`src/mixer.js`) starts every loaded player that is not already playing,
muted or not (a muted player plays on at volume `-Infinity`), while variant
B (`src/unnamed/part_000`) starts exactly the loaded players that are not
playing and whose state entry at the player's name is truthy; both
variants start the transport. -/
theorem c1_start_players (s : MixState) (k : String) (p : Player)
    (hstop : s.transportStarted = false)
    (hp : jsGet s.players k = some p) :
    jsGet (togglePlayPauseA s).players k = some { p with isPlaying := true } ∧
    jsGet (togglePlayPauseB s).players k =
      some { p with
        isPlaying := p.isPlaying || (jsGet s.instrumentStates p.name).getD false } ∧
    (togglePlayPauseA s).transportStarted = true ∧
    (togglePlayPauseB s).transportStarted = true := by
  obtain ⟨nm, vol, ip⟩ := p
  have hA := jsGet_map_of_some
    (fun kv => if kv.2.isPlaying then kv.2 else { kv.2 with isPlaying := true })
    s.players k _ hp
  have hB := jsGet_map_of_some
    (fun kv =>
      if !kv.2.isPlaying && (jsGet s.instrumentStates kv.2.name).getD false then
        { kv.2 with isPlaying := true }
      else kv.2)
    s.players k _ hp
  simp only [togglePlayPauseA, togglePlayPauseB, hstop]
  cases ip <;>
    cases hst : (jsGet s.instrumentStates nm).getD false <;>
    simp_all

/-- C1 witness: the stopped state with muted, non-playing Clave. -/
theorem c1_witness :
    jsGet (togglePlayPauseA c1State).players "Clave" =
      some { name := "Clave", volume := Vol.silent, isPlaying := true } ∧
    jsGet (togglePlayPauseB c1State).players "Clave" =
      some { name := "Clave", volume := Vol.silent,
             isPlaying :=
               false || (jsGet c1State.instrumentStates "Clave").getD false } ∧
    (togglePlayPauseA c1State).transportStarted = true ∧
    (togglePlayPauseB c1State).transportStarted = true :=
  c1_start_players c1State "Clave"
    { name := "Clave", volume := Vol.silent, isPlaying := false } rfl rfl

/-- C4: for a loaded instrument with an enabled button whose volume and
`active` class agree with its state flag, toggling twice restores the
original state flag, the original player (volume included) and the
original presence of the `active` class, and leaves the button enabled. -/
theorem c4_double_toggle (s : MixState) (nm : String) (p : Player) (b : Button)
    (hp : jsGet s.players nm = some p)
    (hb : jsGet s.instrumentButtons nm = some b)
    (hd : b.disabled = false)
    (hv : p.volume =
      if (jsGet s.instrumentStates nm).getD false then Vol.db 0 else Vol.silent)
    (ha : ("active" ∈ b.classes) ↔ (jsGet s.instrumentStates nm).getD false = true) :
    (jsGet (toggleInstrument (toggleInstrument s nm) nm).instrumentStates nm).getD false
        = (jsGet s.instrumentStates nm).getD false ∧
    jsGet (toggleInstrument (toggleInstrument s nm) nm).players nm = some p ∧
    ∃ b2,
      jsGet (toggleInstrument (toggleInstrument s nm) nm).instrumentButtons nm
          = some b2 ∧
      b2.disabled = false ∧
      (("active" ∈ b2.classes) ↔ ("active" ∈ b.classes)) := by
  obtain ⟨pn, pv, pi⟩ := p
  obtain ⟨bd, bc⟩ := b
  simp only at hd
  subst hd
  cases hst : (jsGet s.instrumentStates nm).getD false
  · rw [hst] at hv ha
    simp only [if_false, Bool.false_eq_true] at hv ha
    subst hv
    have e1 : toggleInstrument s nm =
        { s with
          instrumentStates := jsSet s.instrumentStates nm true
          players := jsSet s.players nm ⟨pn, Vol.db 0, pi⟩
          instrumentButtons := jsSet s.instrumentButtons nm
            ⟨false, classListAdd bc "active"⟩ } := by
      unfold toggleInstrument
      rw [hp, hb]
      simp [hst]
    rw [e1]
    have e2 : toggleInstrument
        { s with
          instrumentStates := jsSet s.instrumentStates nm true
          players := jsSet s.players nm ⟨pn, Vol.db 0, pi⟩
          instrumentButtons := jsSet s.instrumentButtons nm
            ⟨false, classListAdd bc "active"⟩ } nm =
        { s with
          instrumentStates := jsSet (jsSet s.instrumentStates nm true) nm false
          players := jsSet (jsSet s.players nm ⟨pn, Vol.db 0, pi⟩) nm
            ⟨pn, Vol.silent, pi⟩
          instrumentButtons := jsSet
            (jsSet s.instrumentButtons nm ⟨false, classListAdd bc "active"⟩) nm
            ⟨false, classListRemove (classListAdd bc "active") "active"⟩ } := by
      unfold toggleInstrument
      rw [jsGet_jsSet_self, jsGet_jsSet_self, jsGet_jsSet_self]
      simp
    rw [e2]
    refine ⟨?_, ?_, ⟨false, classListRemove (classListAdd bc "active") "active"⟩,
      ?_, rfl, ?_⟩
    · simp [jsGet_jsSet_self, hst]
    · simp [jsGet_jsSet_self]
    · simp [jsGet_jsSet_self]
    · have hac : ¬("active" ∈ bc) := by
        intro h
        simpa using ha.mp h
      simp [mem_classListRemove_iff, hac]
  · rw [hst] at hv ha
    simp only [if_true] at hv ha
    have hac : ("active" : String) ∈ bc := ha.mpr (by simp)
    subst hv
    have e1 : toggleInstrument s nm =
        { s with
          instrumentStates := jsSet s.instrumentStates nm false
          players := jsSet s.players nm ⟨pn, Vol.silent, pi⟩
          instrumentButtons := jsSet s.instrumentButtons nm
            ⟨false, classListRemove bc "active"⟩ } := by
      unfold toggleInstrument
      rw [hp, hb]
      simp [hst]
    rw [e1]
    have e2 : toggleInstrument
        { s with
          instrumentStates := jsSet s.instrumentStates nm false
          players := jsSet s.players nm ⟨pn, Vol.silent, pi⟩
          instrumentButtons := jsSet s.instrumentButtons nm
            ⟨false, classListRemove bc "active"⟩ } nm =
        { s with
          instrumentStates := jsSet (jsSet s.instrumentStates nm false) nm true
          players := jsSet (jsSet s.players nm ⟨pn, Vol.silent, pi⟩) nm
            ⟨pn, Vol.db 0, pi⟩
          instrumentButtons := jsSet
            (jsSet s.instrumentButtons nm ⟨false, classListRemove bc "active"⟩) nm
            ⟨false, classListAdd (classListRemove bc "active") "active"⟩ } := by
      unfold toggleInstrument
      rw [jsGet_jsSet_self, jsGet_jsSet_self, jsGet_jsSet_self]
      simp
    rw [e2]
    refine ⟨?_, ?_, ⟨false, classListAdd (classListRemove bc "active") "active"⟩,
      ?_, rfl, ?_⟩
    · simp [jsGet_jsSet_self, hst]
    · simp [jsGet_jsSet_self]
    · simp [jsGet_jsSet_self]
    · simp [mem_classListAdd_iff, mem_classListRemove_iff, hac]

/-- C4 witness: Conga in `c5State` is loaded, enabled, unmuted with
audible volume and `active` present; a double toggle restores all of it. -/
theorem c4_witness :
    ((jsGet (toggleInstrument (toggleInstrument c5State "Conga") "Conga").instrumentStates
        "Conga").getD false
      = (jsGet c5State.instrumentStates "Conga").getD false ∧
    jsGet (toggleInstrument (toggleInstrument c5State "Conga") "Conga").players
        "Conga" = some (initialPlayer "Conga") ∧
    ∃ b2,
      jsGet (toggleInstrument (toggleInstrument c5State "Conga") "Conga").instrumentButtons
          "Conga" = some b2 ∧
      b2.disabled = false ∧
      (("active" ∈ b2.classes) ↔ ("active" ∈ initialButton.classes))) :=
  c4_double_toggle c5State "Conga" (initialPlayer "Conga") initialButton
    rfl rfl rfl (by decide) (by decide)

/-- C5: toggling an instrument with no loaded player, or one whose button
is disabled, changes nothing; moreover no operation ever re-enables a
disabled button (`toggleInstrument` on any name preserves every button's
`disabled` flag, and play/pause and the beat callback do not touch the
buttons at all), so the no-op persists for the rest of the session. -/
theorem c5_toggle_noop (s : MixState) (nm : String) :
    (jsGet s.players nm = none → toggleInstrument s nm = s) ∧
    (∀ b, jsGet s.instrumentButtons nm = some b → b.disabled = true →
      toggleInstrument s nm = s) ∧
    (∀ k b, jsGet s.instrumentButtons k = some b → b.disabled = true →
      ∀ nm2, ∃ b2,
        jsGet (toggleInstrument s nm2).instrumentButtons k = some b2 ∧
        b2.disabled = true) ∧
    (togglePlayPauseA s).instrumentButtons = s.instrumentButtons ∧
    (togglePlayPauseB s).instrumentButtons = s.instrumentButtons ∧
    (beatLoopTick s).instrumentButtons = s.instrumentButtons := by
  refine ⟨?_, ?_, ?_, ?_, ?_, rfl⟩
  · intro h
    unfold toggleInstrument
    rw [h]
  · intro b hb hd
    unfold toggleInstrument
    rw [hb]
    cases jsGet s.players nm
    · rfl
    · simp [hd]
  · intro k b hb hd nm2
    unfold toggleInstrument
    cases hp2 : jsGet s.players nm2
    · exact ⟨b, hb, hd⟩
    · cases hb2 : jsGet s.instrumentButtons nm2
      · exact ⟨b, hb, hd⟩
      · rename_i btn2
        by_cases hkey : nm2 = k
        · subst hkey
          rw [hb] at hb2
          injection hb2 with hb2
          subst hb2
          simp only [hd, if_true]
          exact ⟨b, hb, hd⟩
        · by_cases hdis : btn2.disabled
          · simp only [hdis, if_true]
            exact ⟨b, hb, hd⟩
          · simp only [hdis, if_false, Bool.false_eq_true]
            split_ifs <;>
              exact ⟨b, by simpa [jsGet_jsSet_ne _ _ _ _ hkey] using hb, hd⟩
  · unfold togglePlayPauseA
    split_ifs <;> rfl
  · unfold togglePlayPauseB
    split_ifs <;> rfl

/-- C5 witness: in `c5State`, toggling the failed Clave (no player,
disabled button) is a no-op, and toggling Conga leaves Clave's button
disabled. -/
theorem c5_witness :
    toggleInstrument c5State "Clave" = c5State ∧
    ∃ b2,
      jsGet (toggleInstrument c5State "Conga").instrumentButtons "Clave"
        = some b2 ∧ b2.disabled = true :=
  ⟨(c5_toggle_noop c5State "Clave").1 rfl,
   (c5_toggle_noop c5State "Clave").2.2.1 "Clave" c5DisabledButton rfl rfl "Conga"⟩

/-! ## Loading-loop lemmas -/

theorem loadInstrument_frame (modal : Bool) (ok : String → Bool) (s : MixState)
    (inst : Instrument) (k : String) (h : k ≠ inst.name) :
    jsGet (loadInstrument modal ok s inst).players k = jsGet s.players k ∧
    jsGet (loadInstrument modal ok s inst).instrumentStates k
      = jsGet s.instrumentStates k ∧
    jsGet (loadInstrument modal ok s inst).instrumentButtons k
      = jsGet s.instrumentButtons k := by
  have h2 : inst.name ≠ k := fun hh => h hh.symm
  by_cases hok : ok inst.name = true
  · unfold loadInstrument
    rw [if_pos hok]
    exact ⟨jsGet_jsSet_ne _ _ _ _ h2, jsGet_jsSet_ne _ _ _ _ h2, rfl⟩
  · unfold loadInstrument
    rw [if_neg hok]
    cases hbtn : jsGet s.instrumentButtons inst.name <;>
      simp [hbtn, jsGet_jsSet_ne _ _ _ _ h2]

theorem loadInstrument_mono (modal : Bool) (ok : String → Bool) (s : MixState)
    (inst : Instrument) :
    (∀ e, e ∈ s.consoleErrors → e ∈ (loadInstrument modal ok s inst).consoleErrors) ∧
    (s.messageBoxHidden = false →
      (loadInstrument modal ok s inst).messageBoxHidden = false) := by
  by_cases hok : ok inst.name = true
  · unfold loadInstrument
    rw [if_pos hok]
    exact ⟨fun e he => he, fun h => h⟩
  · unfold loadInstrument
    rw [if_neg hok]
    constructor
    · intro e he
      cases hbtn : jsGet s.instrumentButtons inst.name <;>
        simp [hbtn, List.mem_append, he]
    · intro h
      cases hbtn : jsGet s.instrumentButtons inst.name <;>
        cases modal <;> simp [hbtn, h]

theorem loadInstrument_spec (modal : Bool) (ok : String → Bool) (s : MixState)
    (inst : Instrument) :
    (ok inst.name = true →
      jsGet (loadInstrument modal ok s inst).players inst.name
        = some (initialPlayer inst.name) ∧
      jsGet (loadInstrument modal ok s inst).instrumentStates inst.name
        = some true ∧
      jsGet (loadInstrument modal ok s inst).instrumentButtons inst.name
        = jsGet s.instrumentButtons inst.name) ∧
    (ok inst.name = false →
      jsGet (loadInstrument modal ok s inst).players inst.name
        = jsGet s.players inst.name ∧
      jsGet (loadInstrument modal ok s inst).instrumentStates inst.name
        = some false ∧
      loadErrorMsg inst ∈ (loadInstrument modal ok s inst).consoleErrors ∧
      (modal = true → (loadInstrument modal ok s inst).messageBoxHidden = false) ∧
      (∀ b, jsGet s.instrumentButtons inst.name = some b →
        jsGet (loadInstrument modal ok s inst).instrumentButtons inst.name
          = some (disabledify b)) ∧
      (jsGet s.instrumentButtons inst.name = none →
        jsGet (loadInstrument modal ok s inst).instrumentButtons inst.name
          = none)) := by
  constructor
  · intro hok
    unfold loadInstrument
    simp [hok, jsGet_jsSet_self]
  · intro hok
    unfold loadInstrument
    simp only [hok, Bool.false_eq_true, if_false]
    cases modal <;>
      cases hbtn : jsGet s.instrumentButtons inst.name <;>
        simp [hbtn, jsGet_jsSet_self, List.mem_append]

theorem loadAll_frame (modal : Bool) (ok : String → Bool)
    (insts : List Instrument) (s : MixState) (k : String)
    (h : ∀ inst ∈ insts, k ≠ inst.name) :
    jsGet (insts.foldl (loadInstrument modal ok) s).players k
      = jsGet s.players k ∧
    jsGet (insts.foldl (loadInstrument modal ok) s).instrumentStates k
      = jsGet s.instrumentStates k ∧
    jsGet (insts.foldl (loadInstrument modal ok) s).instrumentButtons k
      = jsGet s.instrumentButtons k := by
  induction insts generalizing s with
  | nil => exact ⟨rfl, rfl, rfl⟩
  | cons i rest ih =>
      simp only [List.foldl_cons]
      obtain ⟨f1, f2, f3⟩ :=
        loadInstrument_frame modal ok s i k (h i (List.mem_cons_self i rest))
      obtain ⟨g1, g2, g3⟩ :=
        ih (loadInstrument modal ok s i) (fun j hj => h j (List.mem_cons_of_mem i hj))
      exact ⟨g1.trans f1, g2.trans f2, g3.trans f3⟩

theorem loadAll_mono (modal : Bool) (ok : String → Bool)
    (insts : List Instrument) (s : MixState) :
    (∀ e, e ∈ s.consoleErrors →
      e ∈ (insts.foldl (loadInstrument modal ok) s).consoleErrors) ∧
    (s.messageBoxHidden = false →
      (insts.foldl (loadInstrument modal ok) s).messageBoxHidden = false) := by
  induction insts generalizing s with
  | nil => exact ⟨fun e he => he, fun h => h⟩
  | cons i rest ih =>
      simp only [List.foldl_cons]
      obtain ⟨m1, m2⟩ := loadInstrument_mono modal ok s i
      obtain ⟨n1, n2⟩ := ih (loadInstrument modal ok s i)
      exact ⟨fun e he => n1 e (m1 e he), fun h => n2 (m2 h)⟩

theorem loadAll_spec (modal : Bool) (ok : String → Bool)
    (insts : List Instrument) (s : MixState)
    (hnd : (insts.map Instrument.name).Nodup)
    (inst : Instrument) (hmem : inst ∈ insts) :
    (ok inst.name = true →
      jsGet (insts.foldl (loadInstrument modal ok) s).players inst.name
        = some (initialPlayer inst.name) ∧
      jsGet (insts.foldl (loadInstrument modal ok) s).instrumentStates inst.name
        = some true ∧
      jsGet (insts.foldl (loadInstrument modal ok) s).instrumentButtons inst.name
        = jsGet s.instrumentButtons inst.name) ∧
    (ok inst.name = false →
      jsGet (insts.foldl (loadInstrument modal ok) s).players inst.name
        = jsGet s.players inst.name ∧
      jsGet (insts.foldl (loadInstrument modal ok) s).instrumentStates inst.name
        = some false ∧
      loadErrorMsg inst ∈ (insts.foldl (loadInstrument modal ok) s).consoleErrors ∧
      (modal = true →
        (insts.foldl (loadInstrument modal ok) s).messageBoxHidden = false) ∧
      (∀ b, jsGet s.instrumentButtons inst.name = some b →
        jsGet (insts.foldl (loadInstrument modal ok) s).instrumentButtons inst.name
          = some (disabledify b)) ∧
      (jsGet s.instrumentButtons inst.name = none →
        jsGet (insts.foldl (loadInstrument modal ok) s).instrumentButtons inst.name
          = none)) := by
  induction insts generalizing s with
  | nil => cases hmem
  | cons i rest ih =>
      simp only [List.map_cons, List.nodup_cons] at hnd
      obtain ⟨hni, hndr⟩ := hnd
      simp only [List.foldl_cons]
      rcases List.mem_cons.mp hmem with rfl | hmem2
      · obtain ⟨f1, f2, f3⟩ :=
          loadAll_frame modal ok rest (loadInstrument modal ok s inst) inst.name
            (by
              intro j hj he
              apply hni
              rw [he]
              exact List.mem_map_of_mem Instrument.name hj)
        obtain ⟨sp1, sp2⟩ := loadInstrument_spec modal ok s inst
        obtain ⟨mono1, mono2⟩ :=
          loadAll_mono modal ok rest (loadInstrument modal ok s inst)
        constructor
        · intro hok
          obtain ⟨a1, a2, a3⟩ := sp1 hok
          exact ⟨f1.trans a1, f2.trans a2, f3.trans a3⟩
        · intro hok
          obtain ⟨a1, a2, a3, a4, a5, a6⟩ := sp2 hok
          refine ⟨f1.trans a1, f2.trans a2, mono1 _ a3, fun hm => mono2 (a4 hm),
            ?_, ?_⟩
          · intro b hb
            rw [f3]
            exact a5 b hb
          · intro hb
            rw [f3]
            exact a6 hb
      · have hne : inst.name ≠ i.name := by
          intro he
          apply hni
          rw [← he]
          exact List.mem_map_of_mem Instrument.name hmem2
        obtain ⟨f1, f2, f3⟩ := loadInstrument_frame modal ok s i inst.name hne
        have hrec := ih (loadInstrument modal ok s i) hndr hmem2
        rw [f1, f3] at hrec
        exact hrec

/-! ## Button-creation lemmas -/

theorem createButtons_fields (insts : List Instrument) (s : MixState) :
    (createInstrumentButtons insts s).players = s.players ∧
    (createInstrumentButtons insts s).instrumentStates = s.instrumentStates := by
  induction insts generalizing s with
  | nil => exact ⟨rfl, rfl⟩
  | cons i rest ih =>
      simp only [createInstrumentButtons, List.foldl_cons] at ih ⊢
      exact ih (createButtonStep s i)

theorem createButtons_lookup (insts : List Instrument) (s : MixState) (k : String) :
    jsGet (createInstrumentButtons insts s).instrumentButtons k =
      if k ∈ insts.map Instrument.name then some initialButton
      else jsGet s.instrumentButtons k := by
  induction insts generalizing s with
  | nil => simp [createInstrumentButtons]
  | cons i rest ih =>
      simp only [createInstrumentButtons, List.foldl_cons] at ih ⊢
      rw [ih (createButtonStep s i)]
      by_cases hk : k ∈ rest.map Instrument.name
      · simp [hk]
      · by_cases hik : i.name = k
        · subst hik
          simp [hk, createButtonStep, jsGet_jsSet_self]
        · have hki : ¬(k = i.name) := fun hh => hik hh.symm
          simp [hk, hki, createButtonStep, jsGet_jsSet_ne _ _ _ _ hik]

/-- C6: a per-instrument load failure is isolated: for every load outcome,
every instrument whose load succeeded has its player stored and its state
flag `true` irrespective of the other instruments' failures, and every
failed instrument ends with no player, state `false`, its button disabled
without `active`, and the user notified — by the console error in variant A
and by the console error plus the now-visible message box in variant B. -/
theorem c6_isolated_failures (ok : String → Bool) :
    (∀ inst ∈ instruments,
      (ok inst.name = true →
        jsGet (postInitA ok).players inst.name = some (initialPlayer inst.name) ∧
        jsGet (postInitA ok).instrumentStates inst.name = some true) ∧
      (ok inst.name = false →
        jsGet (postInitA ok).players inst.name = none ∧
        jsGet (postInitA ok).instrumentStates inst.name = some false ∧
        jsGet (postInitA ok).instrumentButtons inst.name
          = some (disabledify initialButton) ∧
        loadErrorMsg inst ∈ (postInitA ok).consoleErrors)) ∧
    (∀ inst ∈ instrumentsB,
      (ok inst.name = true →
        jsGet (postInitB ok).players inst.name = some (initialPlayer inst.name) ∧
        jsGet (postInitB ok).instrumentStates inst.name = some true) ∧
      (ok inst.name = false →
        jsGet (postInitB ok).players inst.name = none ∧
        jsGet (postInitB ok).instrumentStates inst.name = some false ∧
        jsGet (postInitB ok).instrumentButtons inst.name
          = some (disabledify initialButton) ∧
        loadErrorMsg inst ∈ (postInitB ok).consoleErrors ∧
        (postInitB ok).messageBoxHidden = false)) := by
  constructor
  · intro inst hmem
    have hnd : (instruments.map Instrument.name).Nodup := by decide
    have hbtn : jsGet (createInstrumentButtons instruments initialState).instrumentButtons
        inst.name = some initialButton := by
      rw [createButtons_lookup]
      rw [if_pos (List.mem_map_of_mem Instrument.name hmem)]
    have hpl : jsGet (createInstrumentButtons instruments initialState).players
        inst.name = none := by
      rw [(createButtons_fields instruments initialState).1]
      rfl
    obtain ⟨hsucc, hfail⟩ :=
      loadAll_spec false ok instruments
        { preloadState instruments with
          masterVolume := (preloadState instruments).sliderValue }
        hnd inst hmem
    constructor
    · intro hok
      obtain ⟨a1, a2, _⟩ := hsucc hok
      exact ⟨a1, a2⟩
    · intro hok
      obtain ⟨a1, a2, a3, _, a5, _⟩ := hfail hok
      exact ⟨a1.trans hpl, a2, a5 initialButton hbtn, a3⟩
  · intro inst hmem
    have hnd : (instrumentsB.map Instrument.name).Nodup := by decide
    have hbtn : jsGet (createInstrumentButtons instrumentsB initialState).instrumentButtons
        inst.name = some initialButton := by
      rw [createButtons_lookup]
      rw [if_pos (List.mem_map_of_mem Instrument.name hmem)]
    have hpl : jsGet (createInstrumentButtons instrumentsB initialState).players
        inst.name = none := by
      rw [(createButtons_fields instrumentsB initialState).1]
      rfl
    obtain ⟨hsucc, hfail⟩ :=
      loadAll_spec true ok instrumentsB
        { preloadState instrumentsB with
          masterVolume := (preloadState instrumentsB).sliderValue }
        hnd inst hmem
    constructor
    · intro hok
      obtain ⟨a1, a2, _⟩ := hsucc hok
      exact ⟨a1, a2⟩
    · intro hok
      obtain ⟨a1, a2, a3, a4, a5, _⟩ := hfail hok
      exact ⟨a1.trans hpl, a2, a5 initialButton hbtn, a3, a4 rfl⟩

/-- C6 witness: with Clave failing and everything else succeeding, Conga
is loaded and active in variant A while Clave, in variant B, is absent,
muted, disabled and announced through the message box. -/
theorem c6_witness :
    (jsGet (postInitA okW).players "Conga" = some (initialPlayer "Conga") ∧
      jsGet (postInitA okW).instrumentStates "Conga" = some true) ∧
    (jsGet (postInitB okW).players "Clave" = none ∧
      jsGet (postInitB okW).instrumentStates "Clave" = some false ∧
      jsGet (postInitB okW).instrumentButtons "Clave"
        = some (disabledify initialButton) ∧
      loadErrorMsg ⟨"Clave", "clave.wav", []⟩ ∈ (postInitB okW).consoleErrors ∧
      (postInitB okW).messageBoxHidden = false) :=
  ⟨((c6_isolated_failures okW).1 ⟨"Conga", "conga.wav", [1, 5/2, 4, 11/2, 7]⟩
      (List.mem_cons_of_mem _ (List.mem_cons_self _ _))).1 rfl,
   ((c6_isolated_failures okW).2 ⟨"Clave", "clave.wav", []⟩
      (List.mem_cons_self _ _)).2 rfl⟩

/-! ## Onload fix-up-loop lemmas -/

theorem onloadStep_states (s : MixState) (inst : Instrument) :
    (onloadStep s inst).instrumentStates = s.instrumentStates := by
  unfold onloadStep
  cases hbtn : jsGet s.instrumentButtons inst.name
  · rfl
  · cases hp : jsGet s.players inst.name <;>
      by_cases hst : (jsGet s.instrumentStates inst.name).getD false <;>
        simp [hp, hst]

theorem onloadStep_frame (s : MixState) (inst : Instrument) (k : String)
    (h : k ≠ inst.name) :
    jsGet (onloadStep s inst).players k = jsGet s.players k ∧
    jsGet (onloadStep s inst).instrumentButtons k
      = jsGet s.instrumentButtons k := by
  have h2 : inst.name ≠ k := fun hh => h hh.symm
  unfold onloadStep
  cases hbtn : jsGet s.instrumentButtons inst.name
  · exact ⟨rfl, rfl⟩
  · cases hp : jsGet s.players inst.name <;>
      by_cases hst : (jsGet s.instrumentStates inst.name).getD false <;>
        simp [hp, hst, jsGet_jsSet_ne _ _ _ _ h2]

theorem onloadStep_spec (s : MixState) (inst : Instrument) (b : Button)
    (hbtn : jsGet s.instrumentButtons inst.name = some b) :
    ((jsGet s.instrumentStates inst.name).getD false = true →
      jsGet (onloadStep s inst).instrumentButtons inst.name
        = some { b with classes := classListAdd b.classes "active" } ∧
      (∀ p, jsGet s.players inst.name = some p →
        jsGet (onloadStep s inst).players inst.name
          = some { p with volume := Vol.db 0 }) ∧
      (jsGet s.players inst.name = none →
        jsGet (onloadStep s inst).players inst.name = none)) ∧
    ((jsGet s.instrumentStates inst.name).getD false = false →
      jsGet (onloadStep s inst).instrumentButtons inst.name
        = some (disabledify b) ∧
      (∀ p, jsGet s.players inst.name = some p →
        jsGet (onloadStep s inst).players inst.name
          = some { p with volume := Vol.silent }) ∧
      (jsGet s.players inst.name = none →
        jsGet (onloadStep s inst).players inst.name = none)) := by
  constructor
  · intro hst
    unfold onloadStep
    rw [hbtn]
    simp only [hst, if_true]
    refine ⟨?_, ?_, ?_⟩
    · cases hp : jsGet s.players inst.name <;> simp [hp, jsGet_jsSet_self]
    · intro p hp
      simp [hp, jsGet_jsSet_self]
    · intro hp
      simp [hp]
  · intro hst
    unfold onloadStep
    rw [hbtn]
    simp only [hst, Bool.false_eq_true, if_false]
    refine ⟨?_, ?_, ?_⟩
    · cases hp : jsGet s.players inst.name <;> simp [hp, jsGet_jsSet_self]
    · intro p hp
      simp [hp, jsGet_jsSet_self]
    · intro hp
      simp [hp]

theorem onloadAll_states (insts : List Instrument) (s : MixState) :
    (insts.foldl onloadStep s).instrumentStates = s.instrumentStates := by
  induction insts generalizing s with
  | nil => rfl
  | cons i rest ih =>
      simp only [List.foldl_cons]
      rw [ih (onloadStep s i), onloadStep_states s i]

theorem onloadAll_frame (insts : List Instrument) (s : MixState) (k : String)
    (h : ∀ inst ∈ insts, k ≠ inst.name) :
    jsGet (insts.foldl onloadStep s).players k = jsGet s.players k ∧
    jsGet (insts.foldl onloadStep s).instrumentButtons k
      = jsGet s.instrumentButtons k := by
  induction insts generalizing s with
  | nil => exact ⟨rfl, rfl⟩
  | cons i rest ih =>
      simp only [List.foldl_cons]
      obtain ⟨f1, f2⟩ := onloadStep_frame s i k (h i (List.mem_cons_self i rest))
      obtain ⟨g1, g2⟩ :=
        ih (onloadStep s i) (fun j hj => h j (List.mem_cons_of_mem i hj))
      exact ⟨g1.trans f1, g2.trans f2⟩

theorem onloadAll_spec (insts : List Instrument) (s : MixState)
    (hnd : (insts.map Instrument.name).Nodup)
    (inst : Instrument) (hmem : inst ∈ insts) (b : Button)
    (hbtn : jsGet s.instrumentButtons inst.name = some b) :
    ((jsGet s.instrumentStates inst.name).getD false = true →
      jsGet (insts.foldl onloadStep s).instrumentButtons inst.name
        = some { b with classes := classListAdd b.classes "active" } ∧
      (∀ p, jsGet s.players inst.name = some p →
        jsGet (insts.foldl onloadStep s).players inst.name
          = some { p with volume := Vol.db 0 }) ∧
      (jsGet s.players inst.name = none →
        jsGet (insts.foldl onloadStep s).players inst.name = none)) ∧
    ((jsGet s.instrumentStates inst.name).getD false = false →
      jsGet (insts.foldl onloadStep s).instrumentButtons inst.name
        = some (disabledify b) ∧
      (∀ p, jsGet s.players inst.name = some p →
        jsGet (insts.foldl onloadStep s).players inst.name
          = some { p with volume := Vol.silent }) ∧
      (jsGet s.players inst.name = none →
        jsGet (insts.foldl onloadStep s).players inst.name = none)) := by
  induction insts generalizing s with
  | nil => cases hmem
  | cons i rest ih =>
      simp only [List.map_cons, List.nodup_cons] at hnd
      obtain ⟨hni, hndr⟩ := hnd
      simp only [List.foldl_cons]
      rcases List.mem_cons.mp hmem with rfl | hmem2
      · obtain ⟨f1, f2⟩ := onloadAll_frame rest (onloadStep s inst) inst.name
          (by
            intro j hj he
            apply hni
            rw [he]
            exact List.mem_map_of_mem Instrument.name hj)
        obtain ⟨sp1, sp2⟩ := onloadStep_spec s inst b hbtn
        constructor
        · intro hst
          obtain ⟨a1, a2, a3⟩ := sp1 hst
          exact ⟨f2.trans a1, fun p hp => f1.trans (a2 p hp),
            fun hp => f1.trans (a3 hp)⟩
        · intro hst
          obtain ⟨a1, a2, a3⟩ := sp2 hst
          exact ⟨f2.trans a1, fun p hp => f1.trans (a2 p hp),
            fun hp => f1.trans (a3 hp)⟩
      · have hne : inst.name ≠ i.name := by
          intro he
          apply hni
          rw [← he]
          exact List.mem_map_of_mem Instrument.name hmem2
        obtain ⟨f1, f2⟩ := onloadStep_frame s i inst.name hne
        have hrec := ih (onloadStep s i) hndr hmem2 (f2.trans hbtn)
        rw [onloadStep_states s i, f1] at hrec
        exact hrec

/-! ## Whole-initialization lookups -/

theorem initAudio_players_frame (modal : Bool) (insts : List Instrument)
    (ok : String → Bool) (k : String) (h : ∀ inst ∈ insts, k ≠ inst.name) :
    jsGet (initializeAudio modal insts ok (preloadState insts)).players k
      = none := by
  obtain ⟨f1, _, _⟩ := loadAll_frame modal ok insts
    { preloadState insts with masterVolume := (preloadState insts).sliderValue } k h
  have h0 : jsGet (createInstrumentButtons insts initialState).players k = none := by
    rw [(createButtons_fields insts initialState).1]
    rfl
  exact f1.trans h0

theorem initAudio_lookup (modal : Bool) (insts : List Instrument)
    (ok : String → Bool) (hnd : (insts.map Instrument.name).Nodup)
    (inst : Instrument) (hmem : inst ∈ insts) :
    (ok inst.name = true →
      jsGet (initializeAudio modal insts ok (preloadState insts)).players inst.name
        = some (initialPlayer inst.name) ∧
      jsGet (initializeAudio modal insts ok (preloadState insts)).instrumentStates
        inst.name = some true ∧
      jsGet (initializeAudio modal insts ok (preloadState insts)).instrumentButtons
        inst.name = some initialButton) ∧
    (ok inst.name = false →
      jsGet (initializeAudio modal insts ok (preloadState insts)).players inst.name
        = none ∧
      jsGet (initializeAudio modal insts ok (preloadState insts)).instrumentStates
        inst.name = some false ∧
      jsGet (initializeAudio modal insts ok (preloadState insts)).instrumentButtons
        inst.name = some (disabledify initialButton)) := by
  have hbtn : jsGet (createInstrumentButtons insts initialState).instrumentButtons
      inst.name = some initialButton := by
    rw [createButtons_lookup, if_pos (List.mem_map_of_mem Instrument.name hmem)]
  have hpl : jsGet (createInstrumentButtons insts initialState).players inst.name
      = none := by
    rw [(createButtons_fields insts initialState).1]
    rfl
  obtain ⟨hsucc, hfail⟩ := loadAll_spec modal ok insts
    { preloadState insts with masterVolume := (preloadState insts).sliderValue }
    hnd inst hmem
  constructor
  · intro hok
    obtain ⟨a1, a2, a3⟩ := hsucc hok
    exact ⟨a1, a2, a3.trans hbtn⟩
  · intro hok
    obtain ⟨a1, a2, _, _, a5, _⟩ := hfail hok
    exact ⟨a1.trans hpl, a2, a5 initialButton hbtn⟩

/-! ## Consistency -/

theorem consistent_iff (s : MixState) :
    consistent s = true ↔ ∀ k, consistentAtB s k = true := by
  unfold consistent
  rw [List.all_eq_true]
  constructor
  · intro h k
    cases hp : jsGet s.players k
    · unfold consistentAtB
      rw [hp]
    · rename_i v
      have hp2 := hp
      unfold jsGet at hp2
      obtain ⟨kv, hfind, hsnd⟩ := Option.map_eq_some'.mp hp2
      have hmem := List.mem_of_find?_eq_some hfind
      have hk1 : kv.1 = k := by simpa using List.find?_some hfind
      have hkv := h kv hmem
      rw [hk1] at hkv
      exact hkv
  · intro h kv hmem
    exact h kv.1

theorem toggleInstrument_cases (s : MixState) (nm : String) :
    toggleInstrument s nm = s ∨
    ∃ p b ns,
      jsGet s.players nm = some p ∧
      jsGet s.instrumentButtons nm = some b ∧
      b.disabled = false ∧
      ns = !((jsGet s.instrumentStates nm).getD false) ∧
      toggleInstrument s nm =
        { s with
          instrumentStates := jsSet s.instrumentStates nm ns
          players := jsSet s.players nm
            { p with volume := if ns then Vol.db 0 else Vol.silent }
          instrumentButtons := jsSet s.instrumentButtons nm
            { b with classes :=
                if ns then classListAdd b.classes "active"
                else classListRemove b.classes "active" } } := by
  unfold toggleInstrument
  cases hp : jsGet s.players nm
  · exact Or.inl rfl
  · rename_i p
    cases hb : jsGet s.instrumentButtons nm
    · exact Or.inl rfl
    · rename_i b
      by_cases hd : b.disabled
      · left
        simp [hd]
      · right
        refine ⟨p, b, !((jsGet s.instrumentStates nm).getD false), rfl, rfl,
          by simpa using hd, rfl, ?_⟩
        cases hns : (jsGet s.instrumentStates nm).getD false <;> simp [hd, hns]

theorem onload_consistent (modal : Bool) (insts : List Instrument)
    (ok : String → Bool) (hnd : (insts.map Instrument.name).Nodup) :
    consistent
      (onloadTail insts (initializeAudio modal insts ok (preloadState insts)))
        = true := by
  rw [consistent_iff]
  intro k
  by_cases hk : k ∈ insts.map Instrument.name
  · obtain ⟨inst, hmem, hkeq⟩ := List.mem_map.mp hk
    subst hkeq
    obtain ⟨hsucc, hfail⟩ := initAudio_lookup modal insts ok hnd inst hmem
    cases hok : ok inst.name
    · obtain ⟨a1, a2, a3⟩ := hfail hok
      obtain ⟨_, spF⟩ := onloadAll_spec insts
        (initializeAudio modal insts ok (preloadState insts)) hnd inst hmem
        (disabledify initialButton) a3
      have hgd : (jsGet (initializeAudio modal insts ok
          (preloadState insts)).instrumentStates inst.name).getD false = false := by
        rw [a2]
        rfl
      obtain ⟨_, _, b3⟩ := spF hgd
      have hnone : jsGet (onloadTail insts (initializeAudio modal insts ok
          (preloadState insts))).players inst.name = none := b3 a1
      unfold consistentAtB
      rw [hnone]
    · obtain ⟨a1, a2, a3⟩ := hsucc hok
      obtain ⟨spT, _⟩ := onloadAll_spec insts
        (initializeAudio modal insts ok (preloadState insts)) hnd inst hmem
        initialButton a3
      have hgd : (jsGet (initializeAudio modal insts ok
          (preloadState insts)).instrumentStates inst.name).getD false = true := by
        rw [a2]
        rfl
      obtain ⟨b1, b2, _⟩ := spT hgd
      have hpl2 : jsGet (onloadTail insts (initializeAudio modal insts ok
          (preloadState insts))).players inst.name
            = some { initialPlayer inst.name with volume := Vol.db 0 } :=
        b2 (initialPlayer inst.name) a1
      have hbt2 : jsGet (onloadTail insts (initializeAudio modal insts ok
          (preloadState insts))).instrumentButtons inst.name
            = some { initialButton with
                classes := classListAdd initialButtonClasses "active" } := b1
      have hst2 : jsGet (onloadTail insts (initializeAudio modal insts ok
          (preloadState insts))).instrumentStates inst.name = some true := by
        have e := onloadAll_states insts
          (initializeAudio modal insts ok (preloadState insts))
        have e2 : (onloadTail insts (initializeAudio modal insts ok
            (preloadState insts))).instrumentStates
              = (initializeAudio modal insts ok (preloadState insts)).instrumentStates := e
        rw [e2, a2]
      unfold consistentAtB
      rw [hpl2, hbt2, hst2]
      rfl
  · have h1 : ∀ j ∈ insts, k ≠ j.name := by
      intro j hj he
      apply hk
      rw [he]
      exact List.mem_map_of_mem Instrument.name hj
    have h2 : jsGet (initializeAudio modal insts ok (preloadState insts)).players k
        = none := initAudio_players_frame modal insts ok k h1
    obtain ⟨g1, _⟩ := onloadAll_frame insts
      (initializeAudio modal insts ok (preloadState insts)) k h1
    have h3 : jsGet (onloadTail insts (initializeAudio modal insts ok
        (preloadState insts))).players k = none := g1.trans h2
    unfold consistentAtB
    rw [h3]

theorem postInitA_eq (ok : String → Bool) :
    postInitA ok = initializeAudio false instruments ok (preloadState instruments) :=
  rfl

theorem postInitB_eq (ok : String → Bool) :
    postInitB ok = initializeAudio true instrumentsB ok (preloadState instrumentsB) :=
  rfl

theorem onloadA_eq (ok : String → Bool) :
    onloadA ok = onloadTail instruments (postInitA ok) :=
  rfl

theorem onloadB_eq (ok : String → Bool) :
    onloadB ok = onloadTail instrumentsB (postInitB ok) :=
  rfl

theorem onloadTail_proj (insts : List Instrument) (s : MixState) :
    (onloadTail insts s).players = (insts.foldl onloadStep s).players ∧
    (onloadTail insts s).instrumentButtons
      = (insts.foldl onloadStep s).instrumentButtons ∧
    (onloadTail insts s).instrumentStates
      = (insts.foldl onloadStep s).instrumentStates :=
  ⟨rfl, rfl, rfl⟩

/-- C9: after `window.onload` completes, every instrument whose load
succeeded is unmuted (state flag `true`, player stored with audible volume
`0`) and its button is enabled and carries the `active` class — in both
variants. -/
theorem c9_success (ok : String → Bool) :
    (∀ inst ∈ instruments, ok inst.name = true →
      jsGet (onloadA ok).instrumentStates inst.name = some true ∧
      jsGet (onloadA ok).players inst.name = some (initialPlayer inst.name) ∧
      ∃ b, jsGet (onloadA ok).instrumentButtons inst.name = some b ∧
        b.disabled = false ∧ "active" ∈ b.classes) ∧
    (∀ inst ∈ instrumentsB, ok inst.name = true →
      jsGet (onloadB ok).instrumentStates inst.name = some true ∧
      jsGet (onloadB ok).players inst.name = some (initialPlayer inst.name) ∧
      ∃ b, jsGet (onloadB ok).instrumentButtons inst.name = some b ∧
        b.disabled = false ∧ "active" ∈ b.classes) := by
  constructor
  · intro inst hmem hok
    have hnd : (instruments.map Instrument.name).Nodup := by decide
    obtain ⟨hsucc, _⟩ := initAudio_lookup false instruments ok hnd inst hmem
    obtain ⟨a1, a2, a3⟩ := hsucc hok
    rw [← postInitA_eq ok] at a1 a2 a3
    obtain ⟨spT, _⟩ := onloadAll_spec instruments (postInitA ok) hnd inst hmem
      initialButton a3
    have hgd : (jsGet (postInitA ok).instrumentStates inst.name).getD false
        = true := by
      rw [a2]
      rfl
    obtain ⟨b1, b2, _⟩ := spT hgd
    have hpv := b2 (initialPlayer inst.name) a1
    obtain ⟨e1, e2, e3⟩ := onloadTail_proj instruments (postInitA ok)
    rw [onloadA_eq ok]
    refine ⟨?_, ?_, ?_⟩
    · rw [show (onloadTail instruments (postInitA ok)).instrumentStates
          = (postInitA ok).instrumentStates from
          e3.trans (onloadAll_states instruments (postInitA ok))]
      exact a2
    · rw [show (onloadTail instruments (postInitA ok)).players
          = (instruments.foldl onloadStep (postInitA ok)).players from e1]
      exact hpv
    · refine ⟨{ initialButton with
          classes := classListAdd initialButtonClasses "active" }, ?_, rfl, ?_⟩
      · rw [show (onloadTail instruments (postInitA ok)).instrumentButtons
            = (instruments.foldl onloadStep (postInitA ok)).instrumentButtons from e2]
        exact b1
      · exact (mem_classListAdd_iff initialButtonClasses "active" "active").mpr
          (Or.inr rfl)
  · intro inst hmem hok
    have hnd : (instrumentsB.map Instrument.name).Nodup := by decide
    obtain ⟨hsucc, _⟩ := initAudio_lookup true instrumentsB ok hnd inst hmem
    obtain ⟨a1, a2, a3⟩ := hsucc hok
    rw [← postInitB_eq ok] at a1 a2 a3
    obtain ⟨spT, _⟩ := onloadAll_spec instrumentsB (postInitB ok) hnd inst hmem
      initialButton a3
    have hgd : (jsGet (postInitB ok).instrumentStates inst.name).getD false
        = true := by
      rw [a2]
      rfl
    obtain ⟨b1, b2, _⟩ := spT hgd
    have hpv := b2 (initialPlayer inst.name) a1
    obtain ⟨e1, e2, e3⟩ := onloadTail_proj instrumentsB (postInitB ok)
    rw [onloadB_eq ok]
    refine ⟨?_, ?_, ?_⟩
    · rw [show (onloadTail instrumentsB (postInitB ok)).instrumentStates
          = (postInitB ok).instrumentStates from
          e3.trans (onloadAll_states instrumentsB (postInitB ok))]
      exact a2
    · rw [show (onloadTail instrumentsB (postInitB ok)).players
          = (instrumentsB.foldl onloadStep (postInitB ok)).players from e1]
      exact hpv
    · refine ⟨{ initialButton with
          classes := classListAdd initialButtonClasses "active" }, ?_, rfl, ?_⟩
      · rw [show (onloadTail instrumentsB (postInitB ok)).instrumentButtons
            = (instrumentsB.foldl onloadStep (postInitB ok)).instrumentButtons from e2]
        exact b1
      · exact (mem_classListAdd_iff initialButtonClasses "active" "active").mpr
          (Or.inr rfl)

/-- C9 witness: with every load succeeding, Bass ends up unmuted, stored
and active in both variants. -/
theorem c9_witness :
    (jsGet (onloadA (fun _ => true)).instrumentStates "Bass" = some true ∧
      jsGet (onloadA (fun _ => true)).players "Bass" = some (initialPlayer "Bass") ∧
      ∃ b, jsGet (onloadA (fun _ => true)).instrumentButtons "Bass" = some b ∧
        b.disabled = false ∧ "active" ∈ b.classes) ∧
    (jsGet (onloadB (fun _ => true)).instrumentStates "Bass" = some true ∧
      jsGet (onloadB (fun _ => true)).players "Bass" = some (initialPlayer "Bass") ∧
      ∃ b, jsGet (onloadB (fun _ => true)).instrumentButtons "Bass" = some b ∧
        b.disabled = false ∧ "active" ∈ b.classes) :=
  ⟨(c9_success (fun _ => true)).1 ⟨"Bass", "bass.wav", [1, 3, 5, 7]⟩
      (List.mem_cons_of_mem _ (List.mem_cons_of_mem _ (List.mem_cons_self _ _)))
      rfl,
   (c9_success (fun _ => true)).2 ⟨"Bass", "bass.wav", []⟩
      (List.mem_cons_of_mem _ (List.mem_cons_of_mem _ (List.mem_cons_self _ _)))
      rfl⟩

/-- C10: the three-way consistency — for every stored player, a button
exists and the state flag, the player volume (`0` vs `-Infinity`) and the
`active` class agree — holds after `window.onload` of either variant for
every load outcome, and is preserved by `toggleInstrument` on any name. -/
theorem c10_consistency (ok : String → Bool) (s : MixState) (nm : String)
    (h : consistent s = true) :
    consistent (onloadA ok) = true ∧
    consistent (onloadB ok) = true ∧
    consistent (toggleInstrument s nm) = true := by
  refine ⟨onload_consistent false instruments ok (by decide),
    onload_consistent true instrumentsB ok (by decide), ?_⟩
  rw [consistent_iff] at h
  rw [consistent_iff]
  intro k
  rcases toggleInstrument_cases s nm with heq | ⟨p, b, ns, hp, hb, hd, hns, heq⟩
  · rw [heq]
    exact h k
  · rw [heq]
    by_cases hkey : k = nm
    · subst hkey
      unfold consistentAtB
      simp only [jsGet_jsSet_self]
      cases hsn : ns <;>
        simp [classListContains, mem_classListAdd_iff, mem_classListRemove_iff]
    · have hne : nm ≠ k := fun hh => hkey hh.symm
      have e1 := jsGet_jsSet_ne s.players nm k
        { p with volume := if ns then Vol.db 0 else Vol.silent } hne
      have e2 := jsGet_jsSet_ne s.instrumentButtons nm k
        { b with classes :=
            if ns then classListAdd b.classes "active"
            else classListRemove b.classes "active" } hne
      have e3 := jsGet_jsSet_ne s.instrumentStates nm k ns hne
      have hk2 := h k
      unfold consistentAtB at hk2 ⊢
      simp only [e1, e2, e3]
      exact hk2

/-- C10 witness: the invariant holds in the running two-player state and
after toggling Clave there, and after both onloads with Clave failing. -/
theorem c10_witness :
    consistent (onloadA okW) = true ∧
    consistent (onloadB okW) = true ∧
    consistent (toggleInstrument c3State "Clave") = true :=
  c10_consistency okW c3State "Clave" (by decide)

end SalsaMixer
